import Mathlib

/-!
Shallow embedding of `src/jobs/jobs.py` (job `CustomCSVImport`).

The source defines:
  * a module-level `us_states` dict mapping two-letter abbreviations to
    full US state names (lines 20-72);
  * helper methods `_perform_atomic_operation` (lines 113-123) and
    `_perform_operation` (lines 125-149) implementing the all-or-nothing
    and partial-commit import routines (their call sites in `run` are
    commented out, lines 212-215);
  * the entry point `run` (lines 151-230): permission check, model and
    serializer resolution, input-presence check, CSV parse, then an
    active loop (lines 202-210) that validates each row's `state` field
    against `us_states` and calls `Location.objects.get_or_create` for
    the state and city names, breaking at the first invalid state.

Django/Nautobot collaborators are modelled as explicit data: the store is
a list of persisted records, `transaction.atomic` blocks become explicit
commit-or-discard of store updates, the CSV parser and permission checks
become environment fields, and `self.logger` calls become a list of
structured log entries carrying the arguments of each format string.
-/

/-- The `us_states` dict, lines 20-72: abbreviation to full name, in the
source's insertion order. Python dict keys are unique, so an association
list with `List.lookup` models `us_states[k]`, `k in us_states`, and
`us_states.values()` faithfully. -/
def us_states : List (String × String) :=
  [("AL", "Alabama"), ("AK", "Alaska"), ("AZ", "Arizona"), ("AR", "Arkansas"),
   ("CA", "California"), ("CO", "Colorado"), ("CT", "Connecticut"),
   ("DE", "Delaware"), ("FL", "Florida"), ("GA", "Georgia"), ("HI", "Hawaii"),
   ("ID", "Idaho"), ("IL", "Illinois"), ("IN", "Indiana"), ("IA", "Iowa"),
   ("KS", "Kansas"), ("KY", "Kentucky"), ("LA", "Louisiana"), ("ME", "Maine"),
   ("MD", "Maryland"), ("MA", "Massachusetts"), ("MI", "Michigan"),
   ("MN", "Minnesota"), ("MS", "Mississippi"), ("MO", "Missouri"),
   ("MT", "Montana"), ("NE", "Nebraska"), ("NV", "Nevada"),
   ("NH", "New Hampshire"), ("NJ", "New Jersey"), ("NM", "New Mexico"),
   ("NY", "New York"), ("NC", "North Carolina"), ("ND", "North Dakota"),
   ("OH", "Ohio"), ("OK", "Oklahoma"), ("OR", "Oregon"),
   ("PA", "Pennsylvania"), ("RI", "Rhode Island"), ("SC", "South Carolina"),
   ("SD", "South Dakota"), ("TN", "Tennessee"), ("TX", "Texas"),
   ("UT", "Utah"), ("VT", "Vermont"), ("VA", "Virginia"),
   ("WA", "Washington"), ("WV", "West Virginia"), ("WI", "Wisconsin"),
   ("WY", "Wyoming"), ("DC", "District of Columbia")]

/-- The four `LocationType` rows fetched at lines 195-198 (`State`, `City`,
`Branch`, `Data Center`). -/
inductive LType where
  | state
  | city
  | branch
  | dataCenter
deriving DecidableEq, Repr

/-- The `Status` row fetched at line 199; only `Active` is ever used. -/
inductive StatusV where
  | active
deriving DecidableEq, Repr

/-- A persisted `Location` record, identified by the exact keyword
arguments passed to `Location.objects.get_or_create` at lines 209-210:
`name`, `type`, `status`. -/
structure LocationRec where
  name : String
  ltype : LType
  status : StatusV
deriving DecidableEq, Repr

/-- One parsed CSV row as used by the active loop: `obj["state"]` and
`obj["city"]` (lines 203, 209-210). The serializer passed to the parser
(`CustomLocationSerializer`, lines 78-83) declares `name`, `city`,
`state`; only `state` and `city` are read by the loop. -/
structure CsvRow where
  state : String
  city : String
deriving DecidableEq, Repr

/-- `Location.objects.get_or_create(name=..., type=..., status=...)`:
return the store unchanged when a matching record exists, else append the
new record; the Bool is Django's `created` flag. -/
def get_or_create (store : List LocationRec) (rec : LocationRec) :
    List LocationRec × Bool :=
  if rec ∈ store then (store, false) else (store ++ [rec], true)

/-- Lines 203-205: `state_name = obj["state"]`, then
`if state_name in us_states: state_name = us_states[state_name]`. -/
def map_state (s : String) : String :=
  match List.lookup s us_states with
  | some full => full
  | none => s

/-- Line 206: after mapping, the row is valid iff
`state_name in us_states.values()`. -/
def stateValid (s : String) : Bool :=
  decide (map_state s ∈ us_states.map Prod.snd)

/-- Result of the active row loop of `run` (lines 201-210): the Location
store after the loop, the `validation_failed` flag, and how many rows the
loop consumed before returning (`break` stops it early). -/
structure LoopResult where
  store : List LocationRec
  validation_failed : Bool
  processed : Nat
deriving DecidableEq, Repr

/-- The active row loop, lines 201-210. For each row: map the state
abbreviation; on an invalid state set `validation_failed = True` and
`break`; otherwise `get_or_create` the state Location under the RAW
`obj["state"]` value (line 209) and the city Location under `obj["city"]`
(line 210), then continue. -/
def run_loop (store : List LocationRec) : List CsvRow → LoopResult
  | [] => ⟨store, false, 0⟩
  | obj :: rest =>
    if stateValid obj.state then
      let store1 := (get_or_create store ⟨obj.state, .state, .active⟩).1
      let store2 := (get_or_create store1 ⟨obj.city, .city, .active⟩).1
      let r := run_loop store2 rest
      ⟨r.store, r.validation_failed, r.processed + 1⟩
    else
      ⟨store, true, 1⟩

/-- The exceptions `run` can raise (lines 154, 163, 172, 176, 229, 230). -/
inductive RunError where
  | permissionDenied
  | modelNotFound
  | serializerNotFound
  | inputMissing
  /-- Line 229: "CSV import not successful, all imports were rolled back,
  see logs". -/
  | rolledBack
  /-- Line 230: "CSV import not fully successful, see logs". -/
  | notFullySuccessful
deriving DecidableEq, Repr

/-- `run` either returns normally (`None`) or raises a `RunError`. -/
inductive RunOutcome where
  | ok
  | err (e : RunError)
deriving DecidableEq, Repr

/-- The CSV parser's behaviour on the supplied bytes (line 186):
either an ordered row list or a `ParseError` (caught at line 216). -/
inductive ParseResult where
  | ok (rows : List CsvRow)
  | parseFailure
deriving DecidableEq, Repr

/-- Collaborator behaviour fixed before `run` starts: whether
`self.user.has_perm(...)` grants create permission (line 152), whether
`content_type.model_class()` resolves (line 156), whether
`get_serializer_for_model` succeeds (line 165), and what the CSV parser
returns for the supplied input (line 186). The `LocationType` and
`Status` lookups of lines 195-199 are assumed to succeed. -/
structure RunEnv where
  has_perm : Bool
  model_found : Bool
  serializer_found : Bool
  parse : ParseResult
deriving Repr

/-- The request arguments of `run` (line 151): `csv_data`, `csv_file`,
`roll_back_if_error`. -/
structure RunReq where
  csv_data : Option String
  csv_file : Bool
  roll_back_if_error : Bool
deriving Repr

/-- Observable result of a `run` call: the Location store afterwards, how
many rows the active loop consumed, and the return/raise outcome. -/
structure RunResult where
  store : List LocationRec
  processed : Nat
  result : RunOutcome
deriving Repr

/-- Python truthiness of `csv_data` in `if not csv_data` (line 175):
`None` and the empty string are both falsy. -/
def csv_data_falsy : Option String → Bool
  | none => true
  | some s => s.isEmpty

/-- `CustomCSVImport.run`, lines 151-230, in source order:
1. permission check (152-154) — raises `PermissionDenied` before anything
   else, in particular before the parser ever sees the input;
2. model resolution (156-163), serializer resolution (164-172);
3. input-presence check (175-176) — `RunJobTaskFailed` when neither
   `csv_data` nor `csv_file` is supplied;
4. parse (186-190): a `ParseError` sets `validation_failed = True` with
   no rows processed (216-218);
5. the active row loop (201-210);
6. epilogue (227-230): on `validation_failed`, raise one of the two
   `RunJobTaskFailed` messages depending on `roll_back_if_error`.
Nothing in the active path wraps the loop in a transaction, so the store
mutations made by `get_or_create` before a failure stay persisted. -/
def run (env : RunEnv) (req : RunReq) (store0 : List LocationRec) :
    RunResult :=
  if !env.has_perm then ⟨store0, 0, .err .permissionDenied⟩
  else if !env.model_found then ⟨store0, 0, .err .modelNotFound⟩
  else if !env.serializer_found then ⟨store0, 0, .err .serializerNotFound⟩
  else if csv_data_falsy req.csv_data && !req.csv_file then
    ⟨store0, 0, .err .inputMissing⟩
  else
    match env.parse with
    | .parseFailure =>
      if req.roll_back_if_error then ⟨store0, 0, .err .rolledBack⟩
      else ⟨store0, 0, .err .notFullySuccessful⟩
    | .ok data =>
      let r := run_loop store0 data
      if r.validation_failed then
        if req.roll_back_if_error then
          ⟨r.store, r.processed, .err .rolledBack⟩
        else ⟨r.store, r.processed, .err .notFullySuccessful⟩
      else ⟨r.store, r.processed, .ok⟩

/-- Declared default of the `roll_back_if_error` `BooleanVar` (line 99):
`default=True`, i.e. the job form's pre-filled choice is all-or-nothing. -/
def roll_back_if_error_form_default : Bool := true

/-- Keyword default of `roll_back_if_error` in the `run` signature
(line 151): `roll_back_if_error=False`, i.e. partial-commit. -/
def roll_back_kwarg_default : Bool := false

/-- The `self.logger` calls made by `_perform_operation`,
`_perform_atomic_operation` and `run`, as structured entries carrying the
arguments of each format string. -/
inductive LogEntry where
  /-- Line 136: info, Row %d: Created record "%s". -/
  | createdRecord (row : Nat) (obj : String)
  /-- Lines 139-143: error, Row %d: User "%s" does not have permission to
  create an object with these attributes. -/
  | noPermission (row : Nat) (user : String)
  /-- Line 148: error, Row %d: field: err[0]. -/
  | fieldError (row : Nat) (field : String) (msg : String)
  /-- Line 122: warning, Rolling back all %s records. -/
  | rollingBack (n : Nat)
deriving DecidableEq, Repr

/-- The serializer bound for one run (`serializer_class(data=entry)`):
`is_valid`, the `errors` dict (one message list per failing field, in
iteration order), `save` producing the new record, and the record's
string form used in the Created-record log line. `errs` are present only
when `is_valid` is false; `save` is only consulted when it is true. -/
structure SerializerModel (α ρ : Type) where
  is_valid : α → Bool
  errors : α → List (String × List String)
  save : α → ρ
  objStr : ρ → String

/-- Mutable state threaded through `_perform_operation`: the records
committed to the store by this run, the log, the `new_objs` accumulator
and the `validation_failed` flag. -/
structure OpState (ρ : Type) where
  store : List ρ
  log : List LogEntry
  new_objs : List ρ
  validation_failed : Bool
deriving Repr

/-- One iteration of the `for row, entry in enumerate(data, start=1)`
loop of `_perform_operation` (lines 128-148):
* valid row: `serializer.save()` inside `transaction.atomic()`; if
  `queryset.filter(pk=new_obj.pk).exists()` fails the atomic block is
  aborted (`AbortTransaction`), so the write is discarded, a permission
  error naming the user and the row is logged, and `validation_failed`
  is set; otherwise the write commits, an info line is logged and the
  object is appended to `new_objs`;
* invalid row: `validation_failed = True` and one error line per failing
  field, carrying `err[0]` — the FIRST message of that field. -/
def perform_step {α ρ : Type} (m : SerializerModel α ρ) (visible : ρ → Bool)
    (user : String) (s : OpState ρ) (re : Nat × α) : OpState ρ :=
  if m.is_valid re.2 then
    let new_obj := m.save re.2
    if visible new_obj then
      ⟨s.store ++ [new_obj],
       s.log ++ [.createdRecord re.1 (m.objStr new_obj)],
       s.new_objs ++ [new_obj], s.validation_failed⟩
    else
      ⟨s.store, s.log ++ [.noPermission re.1 user], s.new_objs, true⟩
  else
    ⟨s.store,
     s.log ++ (m.errors re.2).map (fun fe => .fieldError re.1 fe.1 (fe.2.headD "")),
     s.new_objs, true⟩

/-- The loop body of `_perform_operation` folded over an already
enumerated row list, from an arbitrary starting state. -/
def op_fold {α ρ : Type} (m : SerializerModel α ρ) (visible : ρ → Bool)
    (user : String) (s : OpState ρ) (l : List (Nat × α)) : OpState ρ :=
  l.foldl (perform_step m visible user) s

/-- `CustomCSVImport._perform_operation` (lines 125-149): start with
`new_objs = []`, `validation_failed = False`, iterate over
`enumerate(data, start=1)`, return the final state (the Python function
returns `(new_objs, validation_failed)`; the store and log are its side
effects). -/
def perform_operation {α ρ : Type} (m : SerializerModel α ρ)
    (visible : ρ → Bool) (user : String) (store0 : List ρ)
    (data : List α) : OpState ρ :=
  op_fold m visible user ⟨store0, [], [], false⟩ (data.enumFrom 1)

/-- `CustomCSVImport._perform_atomic_operation` (lines 113-123): run
`_perform_operation` inside one `transaction.atomic()` block; when
`validation_failed` is set, raise `AbortTransaction` so the whole block
rolls back (the store reverts to `store0`), log the Rolling-back warning
with `len(new_objs)`, and return an empty `new_objs` list; otherwise the
block commits and the inner result is returned. Log lines are not
transactional and survive the rollback. -/
def perform_atomic_operation {α ρ : Type} (m : SerializerModel α ρ)
    (visible : ρ → Bool) (user : String) (store0 : List ρ)
    (data : List α) : OpState ρ :=
  let r := perform_operation m visible user store0 data
  if r.validation_failed then
    ⟨store0, r.log ++ [.rollingBack r.new_objs.length], [], true⟩
  else r

/-- The log entries one enumerated row contributes in `perform_step`. -/
def rowLog {α ρ : Type} (m : SerializerModel α ρ) (visible : ρ → Bool)
    (user : String) (re : Nat × α) : List LogEntry :=
  if m.is_valid re.2 then
    if visible (m.save re.2) then
      [.createdRecord re.1 (m.objStr (m.save re.2))]
    else [.noPermission re.1 user]
  else (m.errors re.2).map (fun fe => .fieldError re.1 fe.1 (fe.2.headD ""))

/-- The records one enumerated row commits in `perform_step`. -/
def rowNew {α ρ : Type} (m : SerializerModel α ρ) (visible : ρ → Bool)
    (re : Nat × α) : List ρ :=
  if m.is_valid re.2 && visible (m.save re.2) then [m.save re.2] else []

/-- Whether one enumerated row fails in `perform_step` (validation
failure or visibility mismatch). -/
def rowFails {α ρ : Type} (m : SerializerModel α ρ) (visible : ρ → Bool)
    (re : Nat × α) : Bool :=
  !(m.is_valid re.2 && visible (m.save re.2))

/-- A concrete serializer instance for evaluating the embedding: entries
are natural numbers, entry `0` fails validation with two messages on the
field `name` (mirroring a DRF errors dict whose list has more than one
message), and any other entry validates and saves to itself. -/
def demo_m : SerializerModel Nat Nat where
  is_valid e := decide (0 < e)
  errors e :=
    if e = 0 then [("name", ["first message", "second message"])] else []
  save e := e
  objStr r := toString r

/-- A concrete restricted-view predicate: records below 100 are visible
to the principal, records from 100 up are not. -/
def demo_vis : Nat → Bool := fun r => decide (r < 100)

/-- Two decoded rows whose first state value is invalid. -/
def c1_rows : List CsvRow := [⟨"ZZ", "A"⟩, ⟨"CA", "B"⟩]

/-- Decoded rows: a valid California row followed by an invalid state. -/
def c2_rows : List CsvRow := [⟨"CA", "Sacramento"⟩, ⟨"XX", "Nowhere"⟩]

/-- Collaborators for a run over `c2_rows`: permission granted, model and
serializer resolved, parser succeeds. -/
def c2_env : RunEnv := ⟨true, true, true, .ok c2_rows⟩

/-- Request for the `c2_rows` run: inline CSV text supplied, no file,
`roll_back_if_error=True` (all-or-nothing). -/
def c2_req : RunReq := ⟨some "name,city,state", false, true⟩

/-- Decoded rows: an invalid state followed by a valid New York row. -/
def c3_rows : List CsvRow := [⟨"QQ", "x"⟩, ⟨"NY", "y"⟩]

/-- Collaborators for a run over `c3_rows`. -/
def c3_env : RunEnv := ⟨true, true, true, .ok c3_rows⟩

/-- Request for the `c3_rows` run, all-or-nothing policy. -/
def c3_req : RunReq := ⟨some "name,city,state", false, true⟩

/-- A single decoded row with a valid state. -/
def c4_rows : List CsvRow := [⟨"CA", "LA"⟩]

/-- Collaborators for a run over `c4_rows`. -/
def c4_env : RunEnv := ⟨true, true, true, .ok c4_rows⟩

/-- Request for the `c4_rows` run, `roll_back_if_error=False`
(partial-commit). -/
def c4_req : RunReq := ⟨some "name,city,state", false, false⟩

/-- Collaborators for a denied run whose input would fail to parse. -/
def c5_env : RunEnv := ⟨false, true, true, .parseFailure⟩

/-- Request carrying malformed inline text. -/
def c5_req : RunReq := ⟨some "garbage", true, true⟩

/-- `_perform_operation` evaluated on the single invalid entry `0` with
the concrete serializer `demo_m`. -/
def c7_res : OpState Nat :=
  perform_operation demo_m demo_vis "admin" [] [0]

theorem op_fold_store {α ρ : Type} (m : SerializerModel α ρ)
    (visible : ρ → Bool) (user : String) (l : List (Nat × α))
    (s : OpState ρ) :
    (op_fold m visible user s l).store
      = s.store ++ (l.map (rowNew m visible)).flatten := by
  induction l generalizing s with
  | nil => simp [op_fold]
  | cons re rest ih =>
    simp only [op_fold, List.foldl_cons, List.map_cons, List.flatten_cons]
    rw [show List.foldl (perform_step m visible user)
        (perform_step m visible user s re) rest
        = op_fold m visible user (perform_step m visible user s re) rest
        from rfl]
    rw [ih]
    simp [perform_step, rowNew]
    by_cases h1 : m.is_valid re.2 <;> by_cases h2 : visible (m.save re.2) <;>
      simp [h1, h2]

theorem op_fold_new_objs {α ρ : Type} (m : SerializerModel α ρ)
    (visible : ρ → Bool) (user : String) (l : List (Nat × α))
    (s : OpState ρ) :
    (op_fold m visible user s l).new_objs
      = s.new_objs ++ (l.map (rowNew m visible)).flatten := by
  induction l generalizing s with
  | nil => simp [op_fold]
  | cons re rest ih =>
    simp only [op_fold, List.foldl_cons, List.map_cons, List.flatten_cons]
    rw [show List.foldl (perform_step m visible user)
        (perform_step m visible user s re) rest
        = op_fold m visible user (perform_step m visible user s re) rest
        from rfl]
    rw [ih]
    simp [perform_step, rowNew]
    by_cases h1 : m.is_valid re.2 <;> by_cases h2 : visible (m.save re.2) <;>
      simp [h1, h2]

theorem op_fold_log {α ρ : Type} (m : SerializerModel α ρ)
    (visible : ρ → Bool) (user : String) (l : List (Nat × α))
    (s : OpState ρ) :
    (op_fold m visible user s l).log
      = s.log ++ (l.map (rowLog m visible user)).flatten := by
  induction l generalizing s with
  | nil => simp [op_fold]
  | cons re rest ih =>
    simp only [op_fold, List.foldl_cons, List.map_cons, List.flatten_cons]
    rw [show List.foldl (perform_step m visible user)
        (perform_step m visible user s re) rest
        = op_fold m visible user (perform_step m visible user s re) rest
        from rfl]
    rw [ih]
    simp [perform_step, rowLog]
    by_cases h1 : m.is_valid re.2 <;> by_cases h2 : visible (m.save re.2) <;>
      simp [h1, h2]

theorem op_fold_failed {α ρ : Type} (m : SerializerModel α ρ)
    (visible : ρ → Bool) (user : String) (l : List (Nat × α))
    (s : OpState ρ) :
    (op_fold m visible user s l).validation_failed
      = (s.validation_failed || l.any (rowFails m visible)) := by
  induction l generalizing s with
  | nil => simp [op_fold]
  | cons re rest ih =>
    simp only [op_fold, List.foldl_cons, List.any_cons]
    rw [show List.foldl (perform_step m visible user)
        (perform_step m visible user s re) rest
        = op_fold m visible user (perform_step m visible user s re) rest
        from rfl]
    rw [ih]
    simp [perform_step, rowFails]
    by_cases h1 : m.is_valid re.2 <;> by_cases h2 : visible (m.save re.2) <;>
      simp [h1, h2, Bool.or_comm, Bool.or_assoc, Bool.or_left_comm]

theorem enumFrom_countP_snd {α : Type} (p : α → Bool) (data : List α)
    (n : Nat) :
    (data.enumFrom n).countP (fun re => p re.2) = data.countP p := by
  induction data generalizing n with
  | nil => simp
  | cons a rest ih =>
    simp [List.enumFrom, List.countP_cons, ih]

theorem enumFrom_length_eq {α : Type} (data : List α) (n : Nat) :
    (data.enumFrom n).length = data.length := by
  induction data generalizing n with
  | nil => simp
  | cons a rest ih => simp [List.enumFrom, ih]

theorem flatten_rowNew_length {α ρ : Type} (m : SerializerModel α ρ)
    (visible : ρ → Bool) (l : List (Nat × α)) :
    ((l.map (rowNew m visible)).flatten).length
      = l.countP (fun re => m.is_valid re.2 && visible (m.save re.2)) := by
  induction l with
  | nil => simp
  | cons re rest ih =>
    simp only [List.map_cons, List.flatten_cons, List.length_append, ih,
      List.countP_cons]
    by_cases h : (m.is_valid re.2 && visible (m.save re.2)) = true <;>
      simp [rowNew, h, Nat.add_comm]

theorem run_loop_processed_char (store : List LocationRec)
    (data : List CsvRow) :
    (run_loop store data).processed
      = if data.all (fun r => stateValid r.state) then data.length
        else (data.takeWhile (fun r => stateValid r.state)).length + 1 := by
  induction data generalizing store with
  | nil => simp [run_loop]
  | cons r rest ih =>
    by_cases h : stateValid r.state
    · simp only [run_loop, h, if_pos, List.all_cons, List.takeWhile_cons]
      rw [ih]
      by_cases hrest : rest.all (fun r => stateValid r.state) <;>
        simp [h, hrest]
    · simp [run_loop, h]

theorem run_loop_failed_char (store : List LocationRec)
    (data : List CsvRow) :
    (run_loop store data).validation_failed
      = data.any (fun r => !stateValid r.state) := by
  induction data generalizing store with
  | nil => simp [run_loop]
  | cons r rest ih =>
    by_cases h : stateValid r.state
    · simp only [run_loop, h, if_pos, List.any_cons]
      rw [ih]
      simp [h]
    · simp [run_loop, h]

theorem get_or_create_mem (store : List LocationRec) (rec : LocationRec) :
    rec ∈ (get_or_create store rec).1 := by
  by_cases h : rec ∈ store <;> simp [get_or_create, h]

theorem get_or_create_mono (store : List LocationRec)
    (rec x : LocationRec) (hx : x ∈ store) :
    x ∈ (get_or_create store rec).1 := by
  by_cases h : rec ∈ store <;> simp [get_or_create, h, hx]

theorem run_loop_store_mono (data : List CsvRow)
    (store : List LocationRec) (x : LocationRec) (hx : x ∈ store) :
    x ∈ (run_loop store data).store := by
  induction data generalizing store with
  | nil => simpa [run_loop]
  | cons r rest ih =>
    by_cases h : stateValid r.state
    · simp only [run_loop, h, if_pos]
      exact ih _ (get_or_create_mono _ _ _ (get_or_create_mono _ _ _ hx))
    · simpa [run_loop, h]

theorem lookup_some_key (l : List (String × String)) (s v : String)
    (h : List.lookup s l = some v) : s ∈ l.map Prod.fst := by
  induction l with
  | nil => simp [List.lookup] at h
  | cons p rest ih =>
    rw [List.lookup] at h
    by_cases he : s == p.1
    · simp [eq_of_beq he]
    · simp only [he, cond_false] at h
      simp [ih h]

theorem lookup_some_val (l : List (String × String)) (s v : String)
    (h : List.lookup s l = some v) : v ∈ l.map Prod.snd := by
  induction l with
  | nil => simp [List.lookup] at h
  | cons p rest ih =>
    rw [List.lookup] at h
    by_cases he : s == p.1
    · simp only [he, cond_true, Option.some.injEq] at h
      simp [h]
    · simp only [he, cond_false] at h
      simp [ih h]

theorem lookup_none_key (l : List (String × String)) (s : String)
    (h : List.lookup s l = none) : s ∉ l.map Prod.fst := by
  induction l with
  | nil => simp
  | cons p rest ih =>
    rw [List.lookup] at h
    by_cases he : s == p.1
    · simp [he] at h
    · simp only [he, cond_false] at h
      have hne : s ≠ p.1 := fun hsp => by simp [hsp] at he
      simp [hne, ih h]

theorem stateValid_iff (s : String) :
    stateValid s = true
      ↔ (s ∈ us_states.map Prod.fst ∨ s ∈ us_states.map Prod.snd) := by
  unfold stateValid map_state
  rw [decide_eq_true_iff]
  cases hl : List.lookup s us_states with
  | some full =>
    simp only [hl]
    exact ⟨fun _ => Or.inl (lookup_some_key _ _ _ hl),
           fun _ => lookup_some_val _ _ _ hl⟩
  | none =>
    simp only [hl]
    exact ⟨fun h => Or.inr h,
           fun h => h.elim (fun hk => absurd hk (lookup_none_key _ _ hl))
             (fun hv => hv)⟩

/-- Claim C1, counterexample: two rows are decoded but the active loop of
`run` consumes only the first (its state "ZZ" is invalid, so the loop
breaks), so not every decoded row is processed. -/
theorem claim1_counterexample :
    (run_loop [] c1_rows).processed = 1
      ∧ (run_loop [] c1_rows).processed ≠ c1_rows.length := by
  constructor <;> decide

/-- Claim C1, amended: the active loop of `run` processes decoded rows in
input order only up to the first row with an invalid state: when every
row's state is valid it processes all of them, otherwise exactly the
valid prefix plus the first invalid row. -/
theorem claim1_amended (store : List LocationRec) (data : List CsvRow) :
    (run_loop store data).processed
      = if data.all (fun r => stateValid r.state) then data.length
        else (data.takeWhile (fun r => stateValid r.state)).length + 1 :=
  run_loop_processed_char store data

/-- Claim C2, code bug, evaluated at the failing input: a run over
`c2_rows` with `roll_back_if_error=True` raises the "all imports were
rolled back" failure, yet the two Location records created for the first
row by `get_or_create` stay persisted — the active path never wraps the
loop in a transaction, contradicting the `roll_back_if_error`
description (line 100) and the raised message (line 229). -/
theorem claim2_code_bug_eval :
    (run c2_env c2_req []).result = .err .rolledBack
      ∧ (run c2_env c2_req []).store
          = [⟨"CA", .state, .active⟩, ⟨"Sacramento", .city, .active⟩] := by
  constructor <;> decide

/-- Claim C3, counterexample: under the all-or-nothing policy the run
over `c3_rows` fails at row 1 and stops — only one of the two decoded
rows is processed, so the loop does not continue after a row failure. -/
theorem claim3_counterexample :
    (run c3_env c3_req []).processed = 1
      ∧ c3_rows.length = 2
      ∧ (run c3_env c3_req []).result = .err .rolledBack := by
  refine ⟨?_, ?_, ?_⟩ <;> decide

/-- Claim C3, amended: a row failure sets the run-level failure flag, but
the active loop of `run` stops at the first invalid row instead of
continuing; the helper `_perform_operation` (the loop behind the
all-or-nothing path `_perform_atomic_operation`) does behave as claimed:
every row is processed and its outcome logged in input order, any row
failure sets the flag, and a set flag makes `_perform_atomic_operation`
roll the store back to its initial contents. -/
theorem claim3_amended :
    (∀ (store : List LocationRec) (r : CsvRow) (rest : List CsvRow),
      stateValid r.state = false → run_loop store (r :: rest) = ⟨store, true, 1⟩)
    ∧ (∀ (α ρ : Type) (m : SerializerModel α ρ) (visible : ρ → Bool)
        (user : String) (store0 : List ρ) (data : List α),
      (perform_operation m visible user store0 data).log
        = ((data.enumFrom 1).map (rowLog m visible user)).flatten)
    ∧ (∀ (α ρ : Type) (m : SerializerModel α ρ) (visible : ρ → Bool)
        (user : String) (store0 : List ρ) (data : List α),
      (perform_operation m visible user store0 data).validation_failed
        = (data.enumFrom 1).any (rowFails m visible))
    ∧ (∀ (α ρ : Type) (m : SerializerModel α ρ) (visible : ρ → Bool)
        (user : String) (store0 : List ρ) (data : List α),
      (perform_operation m visible user store0 data).validation_failed = true →
        (perform_atomic_operation m visible user store0 data).store = store0) := by
  refine ⟨?_, ?_, ?_, ?_⟩
  · intro store r rest h
    simp [run_loop, h]
  · intro α ρ m visible user store0 data
    simpa [perform_operation] using
      op_fold_log m visible user (data.enumFrom 1) ⟨store0, [], [], false⟩
  · intro α ρ m visible user store0 data
    simpa [perform_operation] using
      op_fold_failed m visible user (data.enumFrom 1) ⟨store0, [], [], false⟩
  · intro α ρ m visible user store0 data h
    simp [perform_atomic_operation, h]

/-- Claim C3, witness: the amended theorem applied at concrete inputs —
the break on an invalid state row, and the full rollback of
`_perform_atomic_operation` after the invalid entry `0` fails. -/
theorem claim3_witness :
    run_loop [⟨"x", .city, .active⟩] (⟨"QQ", "x"⟩ :: [])
        = ⟨[⟨"x", .city, .active⟩], true, 1⟩
      ∧ (perform_atomic_operation demo_m demo_vis "admin" [7] [0]).store = [7] :=
  ⟨claim3_amended.1 [⟨"x", .city, .active⟩] ⟨"QQ", "x"⟩ [] (by decide),
   claim3_amended.2.2.2 Nat Nat demo_m demo_vis "admin" [7] [0] (by decide)⟩

/-- Claim C4, counterexample: a partial-commit run over the single valid
row `c4_rows` succeeds, yet the store gains two Location records (one for
the state, one for the city), not one record per successful row. -/
theorem claim4_counterexample :
    (run c4_env c4_req []).result = .ok
      ∧ (run c4_env c4_req []).store
          = [⟨"CA", .state, .active⟩, ⟨"LA", .city, .active⟩]
      ∧ (run c4_env c4_req []).processed = 1
      ∧ (run c4_env c4_req []).store.length ≠ 1 := by
  refine ⟨?_, ?_, ?_, ?_⟩ <;> decide

/-- Claim C4, amended: in the helper `_perform_operation` (the
partial-commit routine, each row's creation in its own transaction) the
records persisted by the run are exactly `new_objs` appended after the
prior store contents, their number equals the number of rows whose
outcome is success, and processing a concatenation is processing the
first part and then the second from the reached state — so a failing row
affects only itself and prior and subsequent successful rows stay
committed. The active loop of `run` instead persists up to two Location
records per processed row and stops at the first failure. -/
theorem claim4_amended :
    (∀ (α ρ : Type) (m : SerializerModel α ρ) (visible : ρ → Bool)
        (user : String) (store0 : List ρ) (data : List α),
      (perform_operation m visible user store0 data).store
        = store0 ++ (perform_operation m visible user store0 data).new_objs)
    ∧ (∀ (α ρ : Type) (m : SerializerModel α ρ) (visible : ρ → Bool)
        (user : String) (store0 : List ρ) (data : List α),
      (perform_operation m visible user store0 data).new_objs.length
        = data.countP (fun e => m.is_valid e && visible (m.save e)))
    ∧ (∀ (α ρ : Type) (m : SerializerModel α ρ) (visible : ρ → Bool)
        (user : String) (s : OpState ρ) (xs ys : List (Nat × α)),
      op_fold m visible user s (xs ++ ys)
        = op_fold m visible user (op_fold m visible user s xs) ys) := by
  refine ⟨?_, ?_, ?_⟩
  · intro α ρ m visible user store0 data
    rw [perform_operation,
      op_fold_store m visible user (data.enumFrom 1) ⟨store0, [], [], false⟩,
      op_fold_new_objs m visible user (data.enumFrom 1) ⟨store0, [], [], false⟩]
    simp
  · intro α ρ m visible user store0 data
    rw [perform_operation,
      op_fold_new_objs m visible user (data.enumFrom 1) ⟨store0, [], [], false⟩]
    simp only [List.nil_append]
    rw [flatten_rowNew_length,
      enumFrom_countP_snd (fun e => m.is_valid e && visible (m.save e))]
  · intro α ρ m visible user s xs ys
    simp [op_fold, List.foldl_append]

/-- Claim C5: the permission check at lines 152-154 is the first thing
`run` does, so a denied principal gets `PermissionDenied` for every
request and every parser behaviour — in particular the parser is never
consulted, and a huge or malformed input cannot surface a parse error. -/
theorem claim5_auth_short_circuit (env : RunEnv) (req : RunReq)
    (store0 : List LocationRec) (h : env.has_perm = false) :
    run env req store0 = ⟨store0, 0, .err .permissionDenied⟩ := by
  simp [run, h]

/-- Claim C5, witness: a denied run whose input would fail to parse still
aborts with the authorization error and leaves the store untouched. -/
theorem claim5_witness :
    run c5_env c5_req [] = ⟨[], 0, .err .permissionDenied⟩ :=
  claim5_auth_short_circuit c5_env c5_req [] rfl

/-- Claim C6: in `_perform_operation` (lines 131-144), a row that
validates and is created but whose record is not visible in the
restricted queryset has its per-row atomic block aborted: the store and
`new_objs` are unchanged (the write is discarded, so nothing persists
even under partial-commit), exactly the permission-style error naming
the acting user and the row position is logged, the failure flag is set,
and the loop goes on to the remaining rows unchanged. -/
theorem claim6_visibility_mismatch {α ρ : Type} (m : SerializerModel α ρ)
    (visible : ρ → Bool) (user : String) (s : OpState ρ) (re : Nat × α)
    (rest : List (Nat × α)) (hv : m.is_valid re.2 = true)
    (hi : visible (m.save re.2) = false) :
    perform_step m visible user s re
        = ⟨s.store, s.log ++ [.noPermission re.1 user], s.new_objs, true⟩
      ∧ op_fold m visible user s (re :: rest)
          = op_fold m visible user (perform_step m visible user s re) rest := by
  exact ⟨by simp [perform_step, hv, hi], rfl⟩

/-- Claim C6, witness: the valid but invisible record `100` at row 1 is
discarded, the permission error names the user and the row, and the
flag is set. -/
theorem claim6_witness :
    perform_step demo_m demo_vis "admin" ⟨[], [], [], false⟩ (1, 100)
      = ⟨[], [.noPermission 1 "admin"], [], true⟩ :=
  (claim6_visibility_mismatch demo_m demo_vis "admin" ⟨[], [], [], false⟩
    (1, 100) [] (by decide) (by decide)).1

/-- Claim C7, counterexample: the validator produces two messages for the
field `name` on entry `0`, but the logged failure outcome carries only
the first (`err[0]`, line 148); the second message appears nowhere. -/
theorem claim7_counterexample :
    demo_m.errors 0 = [("name", ["first message", "second message"])]
      ∧ c7_res.log = [.fieldError 1 "name" "first message"]
      ∧ LogEntry.fieldError 1 "name" "second message" ∉ c7_res.log := by
  refine ⟨?_, ?_, ?_⟩ <;> decide

/-- Claim C7, amended: for a row that fails validation,
`_perform_operation` logs one error per failing field carrying that
field's FIRST message only, sets the failure flag, and does not attempt
creation: the store and `new_objs` are unchanged. -/
theorem claim7_amended {α ρ : Type} (m : SerializerModel α ρ)
    (visible : ρ → Bool) (user : String) (s : OpState ρ) (re : Nat × α)
    (h : m.is_valid re.2 = false) :
    perform_step m visible user s re
      = ⟨s.store,
         s.log ++ (m.errors re.2).map
           (fun fe => .fieldError re.1 fe.1 (fe.2.headD "")),
         s.new_objs, true⟩ := by
  simp [perform_step, h]

/-- Claim C7, witness: the amended theorem at the invalid entry `0`. -/
theorem claim7_witness :
    perform_step demo_m demo_vis "admin" ⟨[], [], [], false⟩ (1, 0)
      = ⟨[],
         (demo_m.errors 0).map
           (fun fe => .fieldError 1 fe.1 (fe.2.headD "")),
         [], true⟩ :=
  claim7_amended demo_m demo_vis "admin" ⟨[], [], [], false⟩ (1, 0)
    (by decide)

/-- Claim C8: when permission, model and serializer resolution all pass
but the request supplies neither inline text nor a file (line 175), `run`
raises the input-missing `RunJobTaskFailed` before the parser runs: the
result holds for every parser behaviour, zero rows are processed and the
store is untouched. -/
theorem claim8_input_missing (env : RunEnv) (req : RunReq)
    (store0 : List LocationRec) (h1 : env.has_perm = true)
    (h2 : env.model_found = true) (h3 : env.serializer_found = true)
    (h4 : csv_data_falsy req.csv_data = true) (h5 : req.csv_file = false) :
    run env req store0 = ⟨store0, 0, .err .inputMissing⟩ := by
  simp [run, h1, h2, h3, h4, h5]

/-- Claim C8, witness: a request with `csv_data=None` and no file, over a
parser that would fail, aborts with the input-missing error and leaves
the pre-existing store intact. -/
theorem claim8_witness :
    run ⟨true, true, true, .parseFailure⟩ ⟨none, false, true⟩
        [⟨"CA", .state, .active⟩]
      = ⟨[⟨"CA", .state, .active⟩], 0, .err .inputMissing⟩ :=
  claim8_input_missing ⟨true, true, true, .parseFailure⟩
    ⟨none, false, true⟩ [⟨"CA", .state, .active⟩] rfl rfl rfl rfl rfl

/-- Claim C9, counterexample: the `roll_back_if_error` form variable is
declared with `default=True` (line 99), so the declared default is
all-or-nothing, not partial-commit. -/
theorem claim9_counterexample : ¬ (roll_back_if_error_form_default = false) := by
  decide

/-- Claim C9, amended: the two defaults in the source disagree — the job
form variable defaults to `True` (all-or-nothing, line 99), while the
`run` signature's keyword default is `False` (partial-commit, line 151);
only when `run` is invoked without the keyword does a failing import
raise the partial-commit message rather than the rolled-back one. -/
theorem claim9_amended :
    roll_back_if_error_form_default = true
      ∧ roll_back_kwarg_default = false
      ∧ ∀ store0 : List LocationRec,
          run ⟨true, true, true, .parseFailure⟩
              ⟨some "x", false, roll_back_kwarg_default⟩ store0
            = ⟨store0, 0, .err .notFullySuccessful⟩ :=
  ⟨rfl, rfl, fun _ => rfl⟩

/-- Claim C10: the active loop treats a row's state as valid exactly when
it is a two-letter key of `us_states` or one of its full names; the run
loop's failure flag is set exactly when some reached row has another
value; for a valid row the state Location record is looked up or created
under the raw `obj["state"]` value; and no abbreviation equals its full
name, so an abbreviated row's state Location is keyed by the
abbreviation, not the mapped name. -/
theorem claim10_state_validation :
    (∀ s : String,
      stateValid s = true
        ↔ (s ∈ us_states.map Prod.fst ∨ s ∈ us_states.map Prod.snd))
    ∧ (∀ (store : List LocationRec) (data : List CsvRow),
      (run_loop store data).validation_failed
        = data.any (fun r => !stateValid r.state))
    ∧ (∀ (store : List LocationRec) (r : CsvRow) (rest : List CsvRow),
      stateValid r.state = true →
        LocationRec.mk r.state .state .active
          ∈ (run_loop store (r :: rest)).store)
    ∧ (∀ p ∈ us_states, p.1 ≠ p.2) := by
  refine ⟨stateValid_iff, run_loop_failed_char, ?_, by decide⟩
  intro store r rest h
  simp only [run_loop, h, if_pos]
  exact run_loop_store_mono rest _ _
    (get_or_create_mono _ _ _ (get_or_create_mem _ _))

/-- Claim C10, witness: "CA" is a valid state value, the CA row's state
Location is stored under the raw abbreviation, and "CA" differs from its
mapped full name "California". -/
theorem claim10_witness :
    LocationRec.mk "CA" .state .active
        ∈ (run_loop [] [⟨"CA", "LA"⟩]).store
      ∧ "CA" ≠ "California" :=
  ⟨claim10_state_validation.2.2.1 [] ⟨"CA", "LA"⟩ [] (by decide),
   claim10_state_validation.2.2.2 ("CA", "California") (by decide)⟩
